import Mathlib

set_option maxRecDepth 8000

/-!
# Verification of the doctr OCR prediction pipeline

A shallow embedding of `doctr/models/predictor/pytorch.py` (the
`OCRPredictor` orchestrator) and `doctr/datasets/vocabs.py` (the `VOCABS`
table), together with theorems settling the specified properties.

The external collaborators (`DetectionPredictor`, `RecognitionPredictor`)
and the inherited helpers `_prepare_crops` / `_process_predictions` from
`_OCRPredictor` (whose code is not part of the sources at hand) are
modelled as opaque function-valued fields at their interface boundary.
`DocumentBuilder.__call__` is modelled from the spec (see `docBuilderBuild`).
-/

namespace Doctr

/-- A page image handed to `OCRPredictor.forward`: either a numpy array
(`isNumpy = true`) or a torch tensor (`isNumpy = false`), carrying its
shape (list of axis sizes, so `ndim = shape.length`) and abstract pixel
content `data`. -/
structure PageImage where
  isNumpy : Bool
  shape : List Nat
  data : Nat
deriving Repr, DecidableEq

instance : Inhabited PageImage := ⟨⟨true, [], 0⟩⟩

/-- A per-page localization prediction as returned by the detection
predictor: an ordered list of detected regions, each region abstracted to
an identifier. -/
abbrev LocPred := List Nat

/-- An extracted crop (abstracted to an identifier). -/
abbrev Crop := Nat

/-- A recognition result: a transcribed text with a confidence score
(confidence abstracted to an integer stand-in, never computed on). -/
abbrev WordPred := String × Int

/-- Per-page boxes after post-processing (abstracted). -/
abbrev PageBoxes := List Nat

/-- Per-page (text, confidence) pairs after post-processing. -/
abbrev PageTexts := List WordPred

/-- A page of the output `Document`: its boxes, its text predictions and
the page dimensions recorded by the builder. -/
structure DocPage where
  boxes : PageBoxes
  texts : PageTexts
  dimensions : List Nat
deriving Repr, DecidableEq

/-- The output `Document`: an ordered list of pages. -/
structure Document where
  pages : List DocPage
deriving Repr, DecidableEq

/-- Walks the per-page shape list, pairing each page with its boxes and
text predictions positionally. -/
def buildPages : List PageBoxes → List PageTexts → List (List Nat) → List DocPage
  | _, _, [] => []
  | bs, ts, shp :: rest =>
    { boxes := bs.headD [], texts := ts.headD [], dimensions := shp } ::
      buildPages bs.tail ts.tail rest

/-- Modelled from the spec: `DocumentBuilder.__call__` (doctr/models/builder.py
is not among the sources at hand). Per the spec, the builder pairs each page
with its boxes and (text, confidence) pairs, and the resulting Document has
page count equal to the input page count with page dimensions stored verbatim
from `page_shapes`. -/
def docBuilderBuild (boxes : List PageBoxes) (text_preds : List PageTexts)
    (page_shapes : List (List Nat)) : Document :=
  { pages := buildPages boxes text_preds page_shapes }

/-- The `DocumentBuilder` instance held by the predictor: only its
construction flag matters to the orchestrator. -/
structure DocumentBuilder where
  export_as_straight_boxes : Bool
deriving Repr, DecidableEq

/-- The `OCRPredictor` object state after `__init__`, with the external
predictors and the inherited `_OCRPredictor` helpers (`_prepare_crops`,
`_process_predictions`, from doctr/models/predictor/base.py, not among the
sources at hand) modelled as opaque function-valued fields. -/
structure OCRPredictor where
  det_predictor : List PageImage → List LocPred
  reco_predictor : List Crop → List WordPred
  prepare_crops :
    List PageImage → List LocPred → Bool → Bool → List (List Crop) × List LocPred
  process_predictions : List LocPred → List WordPred → Bool → List PageBoxes × List PageTexts
  doc_builder : DocumentBuilder
  assume_straight_pages : Bool

/-- Models `OCRPredictor.__init__`: stores the two predictors (and base-class
helpers), constructs the document builder from `export_as_straight_boxes`
and records `assume_straight_pages`. -/
def OCRPredictor.init
    (det : List PageImage → List LocPred)
    (reco : List Crop → List WordPred)
    (prep : List PageImage → List LocPred → Bool → Bool → List (List Crop) × List LocPred)
    (proc : List LocPred → List WordPred → Bool → List PageBoxes × List PageTexts)
    (assume_straight_pages : Bool) (export_as_straight_boxes : Bool) : OCRPredictor :=
  { det_predictor := det
    reco_predictor := reco
    prepare_crops := prep
    process_predictions := proc
    doc_builder := { export_as_straight_boxes := export_as_straight_boxes }
    assume_straight_pages := assume_straight_pages }

/-- Models `channels_last = len(pages) == 0 or isinstance(pages[0], np.ndarray)`. -/
def channels_last (pages : List PageImage) : Bool :=
  pages.isEmpty || (pages.headD default).isNumpy

/-- The per-page shape expression handed to the document builder:
`page.shape[:2] if channels_last else page.shape[-2:]`. -/
def pageShapeOf (cl : Bool) (page : PageImage) : List Nat :=
  if cl then page.shape.take 2 else page.shape.drop (page.shape.length - 2)

/-- A record of the arguments of every collaborator invocation made by one
call to `forward`, in order: detection calls, `_prepare_crops` calls,
recognition calls, `_process_predictions` calls and document-builder calls. -/
structure CallTrace where
  detArgs : List (List PageImage)
  prepareArgs : List (List PageImage × List LocPred × Bool × Bool)
  recoArgs : List (List Crop)
  processArgs : List (List LocPred × List WordPred × Bool)
  builderArgs : List (List PageBoxes × List PageTexts × List (List Nat))
deriving Repr

/-- The trace of a call that made no collaborator invocation. -/
def CallTrace.empty : CallTrace := ⟨[], [], [], [], []⟩

/-- Line `loc_preds = self.det_predictor(pages, **kwargs)`. -/
def locPreds (self : OCRPredictor) (pages : List PageImage) : List LocPred :=
  self.det_predictor pages

/-- Line `crops, loc_preds = self._prepare_crops(pages, loc_preds,
channels_last=channels_last, assume_straight_pages=self.assume_straight_pages)`:
the returned pair. -/
def prepareResult (self : OCRPredictor) (pages : List PageImage) :
    List (List Crop) × List LocPred :=
  self.prepare_crops pages (locPreds self pages) (channels_last pages)
    self.assume_straight_pages

/-- The per-page crops (`crops`) returned by `_prepare_crops`. -/
def crops (self : OCRPredictor) (pages : List PageImage) : List (List Crop) :=
  (prepareResult self pages).1

/-- The reassigned `loc_preds` returned by `_prepare_crops`. -/
def adjustedLocPreds (self : OCRPredictor) (pages : List PageImage) : List LocPred :=
  (prepareResult self pages).2

/-- The flattened crop batch
`[crop for page_crops in crops for crop in page_crops]`. -/
def flatCrops (self : OCRPredictor) (pages : List PageImage) : List Crop :=
  (crops self pages).flatten

/-- Line `word_preds = self.reco_predictor([...], **kwargs)`. -/
def wordPreds (self : OCRPredictor) (pages : List PageImage) : List WordPred :=
  self.reco_predictor (flatCrops self pages)

/-- Line `boxes, text_preds = self._process_predictions(loc_preds, word_preds,
allow_rotated_boxes=not self.doc_builder.export_as_straight_boxes)`. -/
def boxesTexts (self : OCRPredictor) (pages : List PageImage) :
    List PageBoxes × List PageTexts :=
  self.process_predictions (adjustedLocPreds self pages) (wordPreds self pages)
    (!self.doc_builder.export_as_straight_boxes)

/-- The per-page shape list handed to the document builder:
`[page.shape[:2] if channels_last else page.shape[-2:] for page in pages]`. -/
def pageShapes (_self : OCRPredictor) (pages : List PageImage) : List (List Nat) :=
  pages.map (pageShapeOf (channels_last pages))

/-- Line `out = self.doc_builder(boxes, text_preds, [...])`. -/
def outDoc (self : OCRPredictor) (pages : List PageImage) : Document :=
  docBuilderBuild (boxesTexts self pages).1 (boxesTexts self pages).2
    (pageShapes self pages)

/-- The body of `forward` past the dimension check: localize, choose the
crop layout, crop, recognize on the flattened crop batch, post-process and
build the document. Returns the result together with the invocation trace. -/
def OCRPredictor.pipeline (self : OCRPredictor) (pages : List PageImage) :
    Except String Document × CallTrace :=
  (Except.ok (outDoc self pages),
   { detArgs := [pages]
     prepareArgs :=
       [(pages, locPreds self pages, channels_last pages, self.assume_straight_pages)]
     recoArgs := [flatCrops self pages]
     processArgs :=
       [(adjustedLocPreds self pages, wordPreds self pages,
         !self.doc_builder.export_as_straight_boxes)]
     builderArgs :=
       [((boxesTexts self pages).1, (boxesTexts self pages).2, pageShapes self pages)] })

/-- Models `OCRPredictor.forward`: the dimension check (raising `ValueError` on
any page whose `ndim != 3`, modelled as `Except.error` with the exact
message) followed by the pipeline body. -/
def OCRPredictor.forward (self : OCRPredictor) (pages : List PageImage) :
    Except String Document × CallTrace :=
  if pages.any (fun page => page.shape.length != 3) then
    (Except.error "incorrect input shape: all pages are expected to be multi-channel 2D images.",
     CallTrace.empty)
  else
    self.pipeline pages

/-! ## The vocabulary table (doctr/datasets/vocabs.py)

Each entry of the `VOCABS` dict is embedded as a `String` definition named
`VOCABS_<key>`. The base entries are the literal values from the source
(`string.digits`, `string.ascii_letters`, `string.punctuation` are the fixed
Python constants); the derived entries are the same concatenations as in the
source. -/

/-- Entry `digits` of `VOCABS` (`string.digits`). -/
def VOCABS_digits : String := "0123456789"

/-- Entry `ascii_letters` of `VOCABS` (`string.ascii_letters`). -/
def VOCABS_ascii_letters : String :=
  "abcdefghijklmnopqrstuvwxyzABCDEFGHIJKLMNOPQRSTUVWXYZ"

/-- Entry `punctuation` of `VOCABS` (`string.punctuation`). -/
def VOCABS_punctuation : String := "!\"#$%&\x27()*+,-./:;<=>?@[\\]^_`\x7b|\x7d~"

/-- Entry `currency` of `VOCABS`. -/
def VOCABS_currency : String := "£€¥¢฿"

/-- Entry `ancient_greek` of `VOCABS`. -/
def VOCABS_ancient_greek : String := "αβγδεζηθικλμνξοπρστυφχψωΑΒΓΔΕΖΗΘΙΚΛΜΝΞΟΠΡΣΤΥΦΧΨΩ"

/-- Entry `arabic_letters` of `VOCABS`. -/
def VOCABS_arabic_letters : String := "ءآأؤإئابةتثجحخدذرزسشصضطظعغـفقكلمنهوىي"

/-- Entry `persian_letters` of `VOCABS`. -/
def VOCABS_persian_letters : String := "پچڢڤگ"

/-- Entry `hindi_digits` of `VOCABS`. -/
def VOCABS_hindi_digits : String := "٠١٢٣٤٥٦٧٨٩"

/-- Entry `arabic_diacritics` of `VOCABS`. -/
def VOCABS_arabic_diacritics : String := "ًٌٍَُِّْ"

/-- Entry `arabic_punctuation` of `VOCABS`. -/
def VOCABS_arabic_punctuation : String := "؟؛«»—"

/-- Entry `latin`: `VOCABS['digits'] + VOCABS['ascii_letters'] + VOCABS['punctuation']`. -/
def VOCABS_latin : String := VOCABS_digits ++ VOCABS_ascii_letters ++ VOCABS_punctuation

/-- Entry `english`: `VOCABS['latin'] + '°' + VOCABS['currency']`. -/
def VOCABS_english : String := VOCABS_latin ++ "°" ++ VOCABS_currency

/-- Entry `legacy_french`. -/
def VOCABS_legacy_french : String :=
  VOCABS_latin ++ "°" ++ "àâéèêëîïôùûçÀÂÉÈËÎÏÔÙÛÇ" ++ VOCABS_currency

/-- Entry `french`: `VOCABS['english'] + 'àâéèêëîïôùûüçÀÂÉÈÊËÎÏÔÙÛÜÇ'`. -/
def VOCABS_french : String := VOCABS_english ++ "àâéèêëîïôùûüçÀÂÉÈÊËÎÏÔÙÛÜÇ"

/-- Entry `portuguese`: `VOCABS['english'] + 'áàâãéêëíïóôõúüçÁÀÂÃÉËÍÏÓÔÕÚÜÇ' + '¡¿'`. -/
def VOCABS_portuguese : String := VOCABS_english ++ "áàâãéêëíïóôõúüçÁÀÂÃÉËÍÏÓÔÕÚÜÇ" ++ "¡¿"

/-- Entry `spanish`: `VOCABS['english'] + 'áéíóúüñÁÉÍÓÚÜÑ' + '¡¿'`. -/
def VOCABS_spanish : String := VOCABS_english ++ "áéíóúüñÁÉÍÓÚÜÑ" ++ "¡¿"

/-- Entry `german`: `VOCABS['english'] + 'äöüßÄÖÜẞ'`. -/
def VOCABS_german : String := VOCABS_english ++ "äöüßÄÖÜẞ"

/-- Entry `arabic`. -/
def VOCABS_arabic : String :=
  VOCABS_digits ++ VOCABS_hindi_digits ++ VOCABS_arabic_letters ++ VOCABS_persian_letters ++
    VOCABS_arabic_diacritics ++ VOCABS_arabic_punctuation ++ VOCABS_punctuation

/-- String `a` is an initial segment of string `b`. -/
def strPre (a b : String) : Prop := b.take a.length = a

instance (a b : String) : Decidable (strPre a b) := by unfold strPre; infer_instance

/-! ## Concrete instances used by the witnesses -/

/-- A concrete detection predictor honoring the one-prediction-per-page contract. -/
def demoDet : List PageImage → List LocPred := fun ps => ps.map (fun _ => [0])

/-- A concrete recognition predictor honoring the one-result-per-crop contract. -/
def demoReco : List Crop → List WordPred := fun cs => cs.map (fun _ => ("w", 1))

/-- A concrete crop-extraction helper honoring the one-group-per-page contract. -/
def demoPrep : List PageImage → List LocPred → Bool → Bool → List (List Crop) × List LocPred :=
  fun ps lp _ _ => (ps.map (fun _ => [5]), lp)

/-- A concrete post-processing helper. -/
def demoProc : List LocPred → List WordPred → Bool → List PageBoxes × List PageTexts :=
  fun lp _ _ => (lp.map (fun _ => []), lp.map (fun _ => []))

/-- A concrete predictor built through `OCRPredictor.init` with
`assume_straight_pages = true` and `export_as_straight_boxes = false`. -/
def demoSelf : OCRPredictor := OCRPredictor.init demoDet demoReco demoPrep demoProc true false

/-- A well-formed 3-dimensional numpy page. -/
def goodPage : PageImage := ⟨true, [4, 5, 3], 7⟩

/-- A second well-formed 3-dimensional page, tensor-style. -/
def goodPage2 : PageImage := ⟨false, [3, 6, 2], 9⟩

/-- A malformed page with only 2 dimensions. -/
def badPage : PageImage := ⟨true, [4, 5], 8⟩

/-- A 3-dimensional page with 7 channels. -/
def widePage : PageImage := ⟨true, [4, 4, 7], 1⟩

/-- A 3-dimensional page with a zero-length axis. -/
def zeroPage : PageImage := ⟨true, [0, 3, 3], 2⟩

/-! ## Shared helper lemmas -/

/-- The builder produces one output page per entry of `page_shapes`. -/
theorem buildPages_length (bs : List PageBoxes) (ts : List PageTexts)
    (shps : List (List Nat)) : (buildPages bs ts shps).length = shps.length := by
  induction shps generalizing bs ts with
  | nil => rfl
  | cons s rest ih => simp [buildPages, ih]

/-- The dimensions of the built pages are exactly `page_shapes`, verbatim. -/
theorem buildPages_map_dimensions (bs : List PageBoxes) (ts : List PageTexts)
    (shps : List (List Nat)) :
    (buildPages bs ts shps).map (fun p => p.dimensions) = shps := by
  induction shps generalizing bs ts with
  | nil => rfl
  | cons s rest ih => simp [buildPages, ih]

/-- When every page is 3-dimensional the guard fails and `forward` runs the
pipeline body. -/
theorem forward_eq_pipeline (self : OCRPredictor) (pages : List PageImage)
    (hvalid : ∀ p ∈ pages, p.shape.length = 3) :
    self.forward pages = self.pipeline pages := by
  have hc : pages.any (fun page => page.shape.length != 3) = false := by
    simp only [List.any_eq_false, bne_iff_ne, ne_eq, not_not]
    exact hvalid
  unfold OCRPredictor.forward
  rw [hc]
  rfl

/-! ## Claim theorems -/

/-- C1: whenever some page of the batch does not have exactly 3 dimensions,
`forward` fails with the `ValueError` message "incorrect input shape: all
pages are expected to be multi-channel 2D images." and makes no collaborator
invocation at all (empty trace: detection and recognition are never called),
regardless of where the malformed page sits in the batch. -/
theorem forward_shape_error (self : OCRPredictor) (pages : List PageImage)
    (h : ∃ p ∈ pages, p.shape.length ≠ 3) :
    self.forward pages =
      (Except.error
        "incorrect input shape: all pages are expected to be multi-channel 2D images.",
       CallTrace.empty) := by
  have hc : pages.any (fun page => page.shape.length != 3) = true := by
    simp only [List.any_eq_true, bne_iff_ne, ne_eq]
    exact h
  unfold OCRPredictor.forward
  rw [hc]
  rfl

/-- C1 witness: a batch whose malformed (2-dimensional) page sits in the
middle is rejected with the exact message and an empty invocation trace. -/
theorem forward_shape_error_witness :
    demoSelf.forward [goodPage, badPage, goodPage2] =
      (Except.error
        "incorrect input shape: all pages are expected to be multi-channel 2D images.",
       CallTrace.empty) :=
  forward_shape_error demoSelf [goodPage, badPage, goodPage2]
    ⟨badPage, by decide, by decide⟩

/-- C2: for a valid batch (all pages 3-dimensional) and contract-honoring
external predictors, `forward` succeeds and the Document has exactly one
page per input page, each storing verbatim the dimensions sliced from the
corresponding input page's shape. -/
theorem forward_page_count (self : OCRPredictor) (pages : List PageImage)
    (hvalid : ∀ p ∈ pages, p.shape.length = 3)
    (_hdet : ∀ ps, (self.det_predictor ps).length = ps.length)
    (_hreco : ∀ cs, (self.reco_predictor cs).length = cs.length) :
    ∃ doc tr, self.forward pages = (Except.ok doc, tr) ∧
      doc.pages.length = pages.length ∧
      doc.pages.map (fun p => p.dimensions) =
        pages.map (pageShapeOf (channels_last pages)) := by
  rw [forward_eq_pipeline self pages hvalid]
  refine ⟨outDoc self pages, _, rfl, ?_, ?_⟩
  · simp [outDoc, docBuilderBuild, buildPages_length, pageShapes]
  · simp [outDoc, docBuilderBuild, buildPages_map_dimensions, pageShapes]

/-- C2 witness: a concrete two-page batch yields a two-page Document whose
stored dimensions are the height/width slices of the input shapes. -/
theorem forward_page_count_witness :
    ∃ doc tr, demoSelf.forward [goodPage, goodPage2] = (Except.ok doc, tr) ∧
      doc.pages.length = [goodPage, goodPage2].length ∧
      doc.pages.map (fun p => p.dimensions) =
        [goodPage, goodPage2].map (pageShapeOf (channels_last [goodPage, goodPage2])) :=
  forward_page_count demoSelf [goodPage, goodPage2] (by decide)
    (fun ps => by simp [demoSelf, OCRPredictor.init, demoDet])
    (fun cs => by simp [demoSelf, OCRPredictor.init, demoReco])

/-- C3: the channel-ordering flag is true exactly when the batch is empty or
its first page is a numpy array, and this one flag is both the
`channels_last` argument handed to `_prepare_crops` and the selector of the
axis pair recorded as page shapes for the document builder. -/
theorem forward_channels_last_decision (self : OCRPredictor) (pages : List PageImage)
    (hvalid : ∀ p ∈ pages, p.shape.length = 3) :
    (channels_last pages = true ↔
      pages = [] ∨ ∃ p rest, pages = p :: rest ∧ p.isNumpy = true) ∧
    ∃ doc tr, self.forward pages = (Except.ok doc, tr) ∧
      tr.prepareArgs.map (fun a => a.2.2.1) = [channels_last pages] ∧
      tr.builderArgs.map (fun a => a.2.2) =
        [pages.map (pageShapeOf (channels_last pages))] := by
  constructor
  · cases pages with
    | nil => simp [channels_last]
    | cons p rest => simp [channels_last]
  · rw [forward_eq_pipeline self pages hvalid]
    exact ⟨outDoc self pages, _, rfl, rfl, rfl⟩

/-- C3 witness: for a batch whose first page is a numpy array the flag is
true, is the flag handed to crop extraction, and selects the page shapes. -/
theorem forward_channels_last_decision_witness :
    (channels_last [goodPage, goodPage2] = true ↔
      [goodPage, goodPage2] = [] ∨
        ∃ p rest, [goodPage, goodPage2] = p :: rest ∧ p.isNumpy = true) ∧
    ∃ doc tr, demoSelf.forward [goodPage, goodPage2] = (Except.ok doc, tr) ∧
      tr.prepareArgs.map (fun a => a.2.2.1) = [channels_last [goodPage, goodPage2]] ∧
      tr.builderArgs.map (fun a => a.2.2) =
        [[goodPage, goodPage2].map (pageShapeOf (channels_last [goodPage, goodPage2]))] :=
  forward_channels_last_decision demoSelf [goodPage, goodPage2] (by decide)

/-- C4: the page shapes handed to the document builder are `shape.take 2`
(the first two axes) of each page when `channels_last` is true, and
`shape.drop (length - 2)` (the last two axes) when it is false. -/
theorem forward_page_shape_axes (self : OCRPredictor) (pages : List PageImage)
    (hvalid : ∀ p ∈ pages, p.shape.length = 3) :
    ∃ doc tr, self.forward pages = (Except.ok doc, tr) ∧
      tr.builderArgs.map (fun a => a.2.2) =
        [pages.map (fun page =>
          if channels_last pages then page.shape.take 2
          else page.shape.drop (page.shape.length - 2))] := by
  rw [forward_eq_pipeline self pages hvalid]
  exact ⟨outDoc self pages, _, rfl, rfl⟩

/-- C4 witness: a channel-first (tensor-first) batch has the last two axes
of each shape recorded, here `[6, 2]` and `[5, 3]`. -/
theorem forward_page_shape_axes_witness :
    ∃ doc tr, demoSelf.forward [goodPage2, goodPage] = (Except.ok doc, tr) ∧
      tr.builderArgs.map (fun a => a.2.2) =
        [[goodPage2, goodPage].map (fun page =>
          if channels_last [goodPage2, goodPage] then page.shape.take 2
          else page.shape.drop (page.shape.length - 2))] :=
  forward_page_shape_axes demoSelf [goodPage2, goodPage] (by decide)

/-- C5: a predictor constructed with `export_as_straight_boxes = esb` always
invokes `_process_predictions` with `allow_rotated_boxes = !esb`. -/
theorem forward_allow_rotated_boxes
    (det : List PageImage → List LocPred) (reco : List Crop → List WordPred)
    (prep : List PageImage → List LocPred → Bool → Bool → List (List Crop) × List LocPred)
    (proc : List LocPred → List WordPred → Bool → List PageBoxes × List PageTexts)
    (asp esb : Bool) (pages : List PageImage)
    (hvalid : ∀ p ∈ pages, p.shape.length = 3) :
    ∃ doc tr,
      (OCRPredictor.init det reco prep proc asp esb).forward pages = (Except.ok doc, tr) ∧
      tr.processArgs.map (fun a => a.2.2) = [!esb] := by
  rw [forward_eq_pipeline _ pages hvalid]
  exact ⟨outDoc _ pages, _, rfl, rfl⟩

/-- C5 witness: with `export_as_straight_boxes = true` the assembly step
receives `allow_rotated_boxes = false`. -/
theorem forward_allow_rotated_boxes_witness :
    ∃ doc tr,
      (OCRPredictor.init demoDet demoReco demoPrep demoProc true true).forward [goodPage] =
        (Except.ok doc, tr) ∧
      tr.processArgs.map (fun a => a.2.2) = [!true] :=
  forward_allow_rotated_boxes demoDet demoReco demoPrep demoProc true true [goodPage]
    (by decide)

/-- C6: on a valid batch the detection predictor is invoked exactly once,
with the full page batch, and the recognition predictor is invoked exactly
once, with the per-page crops flattened in page order (within-page order
preserved by the flattening). -/
theorem forward_single_invocations (self : OCRPredictor) (pages : List PageImage)
    (hvalid : ∀ p ∈ pages, p.shape.length = 3) :
    ∃ doc tr, self.forward pages = (Except.ok doc, tr) ∧
      tr.detArgs = [pages] ∧
      tr.recoArgs = [(crops self pages).flatten] := by
  rw [forward_eq_pipeline self pages hvalid]
  exact ⟨outDoc self pages, _, rfl, rfl, rfl⟩

/-- C6 witness: on a concrete two-page batch the trace shows one detection
call on the full batch and one recognition call on the flattened crops. -/
theorem forward_single_invocations_witness :
    ∃ doc tr, demoSelf.forward [goodPage, goodPage2] = (Except.ok doc, tr) ∧
      tr.detArgs = [[goodPage, goodPage2]] ∧
      tr.recoArgs = [(crops demoSelf [goodPage, goodPage2]).flatten] :=
  forward_single_invocations demoSelf [goodPage, goodPage2] (by decide)

/-- C7: an empty page batch passes validation and yields a Document with
zero pages; there are zero crops, so recognition is called on an empty
batch, the assembly step receives zero recognition results, and the page
shape list handed to the builder is empty. -/
theorem forward_empty_batch (self : OCRPredictor)
    (hprep : ∀ ps lp cl asp, ((self.prepare_crops ps lp cl asp).1).length = ps.length)
    (hreco : ∀ cs, (self.reco_predictor cs).length = cs.length) :
    ∃ doc tr, self.forward [] = (Except.ok doc, tr) ∧
      doc.pages = [] ∧
      tr.recoArgs = [([] : List Crop)] ∧
      tr.processArgs.map (fun a => a.2.1) = [([] : List WordPred)] ∧
      tr.builderArgs.map (fun a => a.2.2) = [([] : List (List Nat))] := by
  have hvalid : ∀ p ∈ ([] : List PageImage), p.shape.length = 3 := by simp
  have hcrops : crops self [] = [] :=
    List.length_eq_zero.mp (hprep [] (locPreds self []) (channels_last [])
      self.assume_straight_pages)
  have hflat : flatCrops self [] = [] := by
    unfold flatCrops
    rw [hcrops]
    rfl
  have hwords : wordPreds self [] = [] := by
    unfold wordPreds
    rw [hflat]
    exact List.length_eq_zero.mp (hreco [])
  rw [forward_eq_pipeline self [] hvalid]
  refine ⟨outDoc self [], _, rfl, rfl, ?_, ?_, rfl⟩
  · show [flatCrops self []] = [[]]
    rw [hflat]
  · show [wordPreds self []] = [[]]
    rw [hwords]

/-- C7 witness: the concrete predictor on an empty batch returns a zero-page
Document with empty crop, recognition and page-shape records. -/
theorem forward_empty_batch_witness :
    ∃ doc tr, demoSelf.forward [] = (Except.ok doc, tr) ∧
      doc.pages = [] ∧
      tr.recoArgs = [([] : List Crop)] ∧
      tr.processArgs.map (fun a => a.2.1) = [([] : List WordPred)] ∧
      tr.builderArgs.map (fun a => a.2.2) = [([] : List (List Nat))] :=
  forward_empty_batch demoSelf
    (fun ps lp cl asp => by simp [demoSelf, OCRPredictor.init, demoPrep])
    (fun cs => by simp [demoSelf, OCRPredictor.init, demoReco])

/-- C8: `forward` is deterministic: with the external predictors modelled as
pure functions, two calls on an identical predictor state and identical page
batches return identical results (hence identical Documents: same page
count, same words, same order). -/
theorem forward_deterministic (self₁ self₂ : OCRPredictor)
    (pages₁ pages₂ : List PageImage) (hself : self₁ = self₂)
    (hpages : pages₁ = pages₂) :
    self₁.forward pages₁ = self₂.forward pages₂ := by
  rw [hself, hpages]

/-- C8 witness: two identical concrete calls return the same result. -/
theorem forward_deterministic_witness :
    demoSelf.forward [goodPage] = demoSelf.forward [goodPage] :=
  forward_deterministic demoSelf demoSelf [goodPage] [goodPage] rfl rfl

/-- C9: validation looks only at the number of dimensions, so every batch of
3-dimensional pages passes the check and `forward` succeeds, whatever the
channel count or axis sizes (for example 7 channels or a zero-length axis). -/
theorem forward_accepts_any_3d (self : OCRPredictor) (pages : List PageImage)
    (h3 : ∀ p ∈ pages, p.shape.length = 3) :
    (self.forward pages).1 = Except.ok (outDoc self pages) := by
  rw [forward_eq_pipeline self pages h3]
  rfl

/-- C9 witness: a batch of a 7-channel page and a zero-length-axis page is
accepted and never triggers the validation error. -/
theorem forward_accepts_any_3d_witness :
    (demoSelf.forward [widePage, zeroPage]).1 =
      Except.ok (outDoc demoSelf [widePage, zeroPage]) :=
  forward_accepts_any_3d demoSelf [widePage, zeroPage] (by decide)

/-- C10: the vocabulary table has prefix-containment structure: `latin` is
the concatenation of `digits`, `ascii_letters` and `punctuation`; `latin` is
a prefix of `english`; `english` is a prefix of `french`, `portuguese`,
`spanish` and `german`; hence every character of the English vocabulary
belongs to each of those language vocabularies. -/
theorem vocabs_prefix_structure :
    VOCABS_latin = VOCABS_digits ++ VOCABS_ascii_letters ++ VOCABS_punctuation ∧
    strPre VOCABS_latin VOCABS_english ∧
    strPre VOCABS_english VOCABS_french ∧
    strPre VOCABS_english VOCABS_portuguese ∧
    strPre VOCABS_english VOCABS_spanish ∧
    strPre VOCABS_english VOCABS_german ∧
    ∀ c ∈ VOCABS_english.data,
      c ∈ VOCABS_french.data ∧ c ∈ VOCABS_portuguese.data ∧
        c ∈ VOCABS_spanish.data ∧ c ∈ VOCABS_german.data := by
  refine ⟨rfl, by decide, by decide, by decide, by decide, by decide, by decide⟩

/-- C10 witness: the character 0 of the English vocabulary is recognizable
under the French, Portuguese, Spanish and German vocabularies. -/
theorem vocabs_prefix_structure_witness :
    Char.ofNat 48 ∈ VOCABS_french.data ∧ Char.ofNat 48 ∈ VOCABS_portuguese.data ∧
      Char.ofNat 48 ∈ VOCABS_spanish.data ∧ Char.ofNat 48 ∈ VOCABS_german.data :=
  vocabs_prefix_structure.2.2.2.2.2.2 (Char.ofNat 48) (by decide)

end Doctr
